import Mathlib

/-!
Shallow embedding of the Mergington High School activities API (src/app.py).

The application keeps two pieces of in-memory mutable state: a session
registry (dict mapping session token to teacher username) and an activity
catalog (dict mapping activity name to an activity record).  Python dicts
are modelled as association lists that preserve insertion order; dict
update keeps an existing key in place and appends a fresh key at the end,
and dict deletion removes the key.  Each request handler is translated as
a pure function from the current state (plus its arguments) to a pair of
response and next state: a raised HTTPException becomes an error response
together with the unchanged state, mirroring the fact that every raise in
the source happens before any mutation.
-/

/-- An activity record, as stored in the activity catalog: description,
schedule, capacity and the ordered participant roster. -/
structure Activity where
  description : String
  schedule : String
  max_participants : Nat
  participants : List String
  deriving Repr, DecidableEq

/-- The mutable application state: `sessions` maps session token to
username, `activities` maps activity name to its record. -/
structure AppState where
  sessions : List (String × String)
  activities : List (String × Activity)
  deriving Repr, DecidableEq

/-- Error outcomes the handlers raise via HTTPException. -/
inductive Err where
  | unauthorized
  | notFound
  | alreadyRegistered
  | notRegistered
  deriving Repr, DecidableEq

/-- HTTP status code carried by each error. -/
def Err.statusCode : Err → Nat
  | .unauthorized => 401
  | .notFound => 404
  | .alreadyRegistered => 400
  | .notRegistered => 400

/-- Python dict read: `d[k]` when `k in d`, `none` when `k not in d`. -/
def dictLookup {β : Type} (k : String) : List (String × β) → Option β
  | [] => none
  | (a, b) :: t => if a = k then some b else dictLookup k t

/-- Python dict write `d[k] = v`: replace the value in place when the key
exists, otherwise append the new binding at the end. -/
def dictInsert (k v : String) (l : List (String × String)) : List (String × String) :=
  if (dictLookup k l).isSome then l.map (fun p => if p.1 = k then (k, v) else p)
  else l ++ [(k, v)]

/-- Python dict deletion `del d[k]`: drop the binding for `k`. -/
def dictErase (k : String) (l : List (String × String)) : List (String × String) :=
  l.filter (fun p => p.1 ≠ k)

/-- In-place mutation of the activity stored under `name` in the catalog
dict (the value is replaced, the key and its position are kept). -/
def updateActivity (name : String) (a : Activity) (l : List (String × Activity)) :
    List (String × Activity) :=
  l.map (fun p => (p.1, if p.1 = name then a else p.2))

/-- The shared auth guard `require_auth` of app.py.  `none` means the
guard raises 401.  A missing cookie and an empty-string cookie are both
falsy in Python (`if not session_token`), so both fail; otherwise the
token must resolve in the session registry, and the guard yields the
resolved username. -/
def require_auth (sessions : List (String × String)) (session_token : Option String) :
    Option String :=
  match session_token with
  | none => none
  | some t => if t = "" then none else dictLookup t sessions

/-- Handler `login` of app.py.  `teachers` is the credential store loaded
at startup; `token` stands for the fresh value produced by
`secrets.token_urlsafe(32)`.  `secrets.compare_digest` on equal-typed
strings is equality.  On success the session registry gains
`token -> username` and the username is returned. -/
def login (teachers : List (String × String)) (st : AppState)
    (username password token : String) : Except Err String × AppState :=
  match dictLookup username teachers with
  | some pw =>
      if pw = password then
        (Except.ok username, { st with sessions := dictInsert token username st.sessions })
      else (Except.error Err.unauthorized, st)
  | none => (Except.error Err.unauthorized, st)

/-- Handler `logout` of app.py: deletes the session when the cookie is
truthy (present and nonempty) and its token is a key of the registry;
always succeeds. -/
def logout (st : AppState) (session_token : Option String) : Except Err Unit × AppState :=
  match session_token with
  | none => (Except.ok (), st)
  | some t =>
      if t ≠ "" ∧ (dictLookup t st.sessions).isSome then
        (Except.ok (), { st with sessions := dictErase t st.sessions })
      else (Except.ok (), st)

/-- Handler `signup_for_activity` of app.py: auth guard, then activity
lookup (404 when absent), then duplicate check (400 when the email is
already on the roster), then append the email to the roster. -/
def signup_for_activity (st : AppState) (activity_name email : String)
    (session_token : Option String) : Except Err Unit × AppState :=
  match require_auth st.sessions session_token with
  | none => (Except.error Err.unauthorized, st)
  | some _ =>
      match dictLookup activity_name st.activities with
      | none => (Except.error Err.notFound, st)
      | some activity =>
          if email ∈ activity.participants then
            (Except.error Err.alreadyRegistered, st)
          else
            (Except.ok (),
              { st with activities :=
                  (updateActivity activity_name
                    ({ activity with participants := activity.participants ++ [email] })
                    st.activities) })

/-- Handler `unregister_from_activity` of app.py: auth guard, then
activity lookup (404 when absent), then membership check (400 when the
email is not on the roster), then `list.remove`, which deletes the first
occurrence of the email. -/
def unregister_from_activity (st : AppState) (activity_name email : String)
    (session_token : Option String) : Except Err Unit × AppState :=
  match require_auth st.sessions session_token with
  | none => (Except.error Err.unauthorized, st)
  | some _ =>
      match dictLookup activity_name st.activities with
      | none => (Except.error Err.notFound, st)
      | some activity =>
          if email ∈ activity.participants then
            (Except.ok (),
              { st with activities :=
                  (updateActivity activity_name
                    ({ activity with participants := activity.participants.erase email })
                    st.activities) })
          else
            (Except.error Err.notRegistered, st)

/-- One client-visible state-mutating operation, for reachability
statements.  The `token` argument of `login` stands for the fresh random
token the handler generates. -/
inductive Op where
  | login (username password token : String)
  | logout (token : Option String)
  | signup (name email : String) (token : Option String)
  | unregister (name email : String) (token : Option String)

/-- Apply one operation to the state, keeping only the state component of
the handler's result. -/
def applyOp (teachers : List (String × String)) (st : AppState) : Op → AppState
  | .login u p tok => (login teachers st u p tok).2
  | .logout tok => (logout st tok).2
  | .signup n e tok => (signup_for_activity st n e tok).2
  | .unregister n e tok => (unregister_from_activity st n e tok).2

/-- The seed activity catalog of app.py (module-level `activities`). -/
def seedActivities : List (String × Activity) := [
  ("Chess Club",
    { description := "Learn strategies and compete in chess tournaments",
      schedule := "Fridays, 3:30 PM - 5:00 PM",
      max_participants := 12,
      participants := ["michael@mergington.edu", "daniel@mergington.edu"] }),
  ("Programming Class",
    { description := "Learn programming fundamentals and build software projects",
      schedule := "Tuesdays and Thursdays, 3:30 PM - 4:30 PM",
      max_participants := 20,
      participants := ["emma@mergington.edu", "sophia@mergington.edu"] }),
  ("Gym Class",
    { description := "Physical education and sports activities",
      schedule := "Mondays, Wednesdays, Fridays, 2:00 PM - 3:00 PM",
      max_participants := 30,
      participants := ["john@mergington.edu", "olivia@mergington.edu"] }),
  ("Soccer Team",
    { description := "Join the school soccer team and compete in matches",
      schedule := "Tuesdays and Thursdays, 4:00 PM - 5:30 PM",
      max_participants := 22,
      participants := ["liam@mergington.edu", "noah@mergington.edu"] }),
  ("Basketball Team",
    { description := "Practice and play basketball with the school team",
      schedule := "Wednesdays and Fridays, 3:30 PM - 5:00 PM",
      max_participants := 15,
      participants := ["ava@mergington.edu", "mia@mergington.edu"] }),
  ("Art Club",
    { description := "Explore your creativity through painting and drawing",
      schedule := "Thursdays, 3:30 PM - 5:00 PM",
      max_participants := 15,
      participants := ["amelia@mergington.edu", "harper@mergington.edu"] }),
  ("Drama Club",
    { description := "Act, direct, and produce plays and performances",
      schedule := "Mondays and Wednesdays, 4:00 PM - 5:30 PM",
      max_participants := 20,
      participants := ["ella@mergington.edu", "scarlett@mergington.edu"] }),
  ("Math Club",
    { description := "Solve challenging problems and participate in math competitions",
      schedule := "Tuesdays, 3:30 PM - 4:30 PM",
      max_participants := 10,
      participants := ["james@mergington.edu", "benjamin@mergington.edu"] }),
  ("Debate Team",
    { description := "Develop public speaking and argumentation skills",
      schedule := "Fridays, 4:00 PM - 5:30 PM",
      max_participants := 12,
      participants := ["charlotte@mergington.edu", "henry@mergington.edu"] })
]

/-- The state at process start: empty session registry, seed catalog. -/
def seedState : AppState :=
  { sessions := [], activities := seedActivities }

/-- The roster-uniqueness invariant: every activity's participant list is
duplicate-free. -/
def CatalogNodup (st : AppState) : Prop :=
  ∀ p ∈ st.activities, p.2.participants.Nodup

instance : DecidablePred CatalogNodup := fun st =>
  decidable_of_iff (∀ p ∈ st.activities, p.2.participants.Nodup) Iff.rfl

/-! ### Concrete states used to instantiate the theorems -/

/-- The seed catalog together with one logged-in teacher session. -/
def demoState : AppState :=
  { sessions := [("tok123", "teacher")], activities := seedActivities }

/-- The Chess Club record of the seed catalog. -/
def chessClub : Activity :=
  { description := "Learn strategies and compete in chess tournaments",
    schedule := "Fridays, 3:30 PM - 5:00 PM",
    max_participants := 12,
    participants := ["michael@mergington.edu", "daniel@mergington.edu"] }

/-- A state whose single activity is already at capacity. -/
def fullState : AppState :=
  { sessions := [("tok123", "teacher")],
    activities := [("Tiny Club",
      { description := "small", schedule := "Mondays", max_participants := 2,
        participants := ["a@mergington.edu", "b@mergington.edu"] })] }

/-- The full activity of `fullState`. -/
def tinyClub : Activity :=
  { description := "small", schedule := "Mondays", max_participants := 2,
    participants := ["a@mergington.edu", "b@mergington.edu"] }

/-- A state whose session registry holds an empty-string token, the edge
case on which Python truthiness diverges from plain key lookup. -/
def emptyTokState : AppState :=
  { sessions := [("", "ghost")], activities := [] }

/-- A one-entry credential store standing for a loaded teachers file. -/
def demoTeachers : List (String × String) := [("teacher", "pw")]

/-- Field-preservation relation between an activity slot before and after
a request: the slot stays occupied (or stays empty) and only the
participant roster may differ. -/
def sameShape : Option Activity → Option Activity → Prop
  | some a, some b =>
      b.description = a.description ∧ b.schedule = a.schedule ∧
        b.max_participants = a.max_participants
  | none, none => True
  | _, _ => False

/-! ### Lemmas about the dict model -/

theorem dictLookup_mem {β : Type} {k : String} {v : β} :
    ∀ {l : List (String × β)}, dictLookup k l = some v → (k, v) ∈ l := by
  intro l
  induction l with
  | nil => intro h; simp [dictLookup] at h
  | cons p t ih =>
      obtain ⟨a, b⟩ := p
      intro h
      by_cases hak : a = k
      · subst hak
        simp [dictLookup] at h
        subst h
        exact List.mem_cons_self _ _
      · simp [dictLookup, hak] at h
        exact List.mem_cons_of_mem _ (ih h)

theorem dictLookup_updateActivity_self {name : String} {a : Activity} (a' : Activity) :
    ∀ {l : List (String × Activity)}, dictLookup name l = some a →
      dictLookup name (updateActivity name a' l) = some a' := by
  intro l
  induction l with
  | nil => intro h; simp [dictLookup] at h
  | cons p t ih =>
      obtain ⟨x, b⟩ := p
      intro h
      by_cases hx : x = name
      · subst hx
        simp [updateActivity, dictLookup]
      · simp [dictLookup, hx] at h
        simp [updateActivity, dictLookup, hx] at ih ⊢
        exact ih h

theorem dictLookup_updateActivity_ne {name k : String} (hk : k ≠ name) (a' : Activity) :
    ∀ l : List (String × Activity),
      dictLookup k (updateActivity name a' l) = dictLookup k l := by
  intro l
  induction l with
  | nil => simp [updateActivity, dictLookup]
  | cons p t ih =>
      obtain ⟨x, b⟩ := p
      by_cases hx : x = name
      · subst hx
        have : x ≠ k := fun he => hk he.symm
        simp [updateActivity, dictLookup, this] at ih ⊢
        exact ih
      · simp [updateActivity, dictLookup, hx] at ih ⊢
        by_cases hxk : x = k <;> simp [hxk, ih]

theorem dictLookup_append_fresh {β : Type} {k : String} (v : β) :
    ∀ {l : List (String × β)}, dictLookup k l = none →
      dictLookup k (l ++ [(k, v)]) = some v := by
  intro l
  induction l with
  | nil => intro _; simp [dictLookup]
  | cons p t ih =>
      obtain ⟨a, b⟩ := p
      intro h
      by_cases hak : a = k
      · subst hak; simp [dictLookup] at h
      · simp [dictLookup, hak] at h ⊢
        exact ih h

theorem dictLookup_dictErase_self (k : String) :
    ∀ l : List (String × String), dictLookup k (dictErase k l) = none := by
  intro l
  induction l with
  | nil => simp [dictErase, dictLookup]
  | cons p t ih =>
      obtain ⟨a, b⟩ := p
      by_cases hak : a = k
      · subst hak
        simpa [dictErase, dictLookup] using ih
      · simpa [dictErase, dictLookup, hak] using ih

/-! ### Shape lemmas for the two roster mutations -/

theorem sameShape_refl : ∀ o : Option Activity, sameShape o o := by
  intro o; cases o <;> simp [sameShape]

/-- Every run of the signup handler either leaves the state untouched or
appends the email to the looked-up activity's roster. -/
theorem signup_state_cases (st : AppState) (name email : String) (tok : Option String) :
    (signup_for_activity st name email tok).2 = st ∨
    ∃ a, dictLookup name st.activities = some a ∧ email ∉ a.participants ∧
      (signup_for_activity st name email tok).2 =
        { st with activities :=
            (updateActivity name
              ({ a with participants := a.participants ++ [email] }) st.activities) } := by
  unfold signup_for_activity
  cases require_auth st.sessions tok with
  | none => exact Or.inl rfl
  | some u =>
      cases hact : dictLookup name st.activities with
      | none => exact Or.inl rfl
      | some a =>
          by_cases hmem : email ∈ a.participants
          · simp [hmem]
          · simp [hmem]

/-- Every run of the unregister handler either leaves the state untouched
or erases the email from the looked-up activity's roster. -/
theorem unregister_state_cases (st : AppState) (name email : String) (tok : Option String) :
    (unregister_from_activity st name email tok).2 = st ∨
    ∃ a, dictLookup name st.activities = some a ∧ email ∈ a.participants ∧
      (unregister_from_activity st name email tok).2 =
        { st with activities :=
            (updateActivity name
              ({ a with participants := a.participants.erase email }) st.activities) } := by
  unfold unregister_from_activity
  cases require_auth st.sessions tok with
  | none => exact Or.inl rfl
  | some u =>
      cases hact : dictLookup name st.activities with
      | none => exact Or.inl rfl
      | some a =>
          by_cases hmem : email ∈ a.participants
          · simp [hmem]
          · simp [hmem]

/-- Neither roster mutation ever touches the session registry. -/
theorem mutations_preserve_sessions (st : AppState) (name email : String)
    (tok : Option String) :
    (signup_for_activity st name email tok).2.sessions = st.sessions ∧
    (unregister_from_activity st name email tok).2.sessions = st.sessions := by
  constructor
  · rcases signup_state_cases st name email tok with h | ⟨a, _, _, h⟩ <;> rw [h]
  · rcases unregister_state_cases st name email tok with h | ⟨a, _, _, h⟩ <;> rw [h]

/-! ### Preservation of the roster-uniqueness invariant -/

theorem catalogNodup_updateActivity {l : List (String × Activity)}
    (h : ∀ p ∈ l, p.2.participants.Nodup) {a' : Activity}
    (ha' : a'.participants.Nodup) (name : String) :
    ∀ p ∈ updateActivity name a' l, p.2.participants.Nodup := by
  intro p hp
  simp only [updateActivity, List.mem_map] at hp
  obtain ⟨q, hq, rfl⟩ := hp
  by_cases hqn : q.1 = name
  · simpa [hqn] using ha'
  · simpa [hqn] using h q hq

theorem catalogNodup_applyOp (teachers : List (String × String)) (st : AppState)
    (op : Op) (h : CatalogNodup st) : CatalogNodup (applyOp teachers st op) := by
  cases op with
  | login u p tok =>
      have hst : (applyOp teachers st (Op.login u p tok)).activities = st.activities := by
        simp only [applyOp]
        unfold login
        split
        · split <;> rfl
        · rfl
      intro q hq
      rw [hst] at hq
      exact h q hq
  | logout tok =>
      have hst : (applyOp teachers st (Op.logout tok)).activities = st.activities := by
        simp only [applyOp]
        unfold logout
        split
        · rfl
        · split <;> rfl
      intro q hq
      rw [hst] at hq
      exact h q hq
  | signup n e tok =>
      rcases signup_state_cases st n e tok with hcase | ⟨a, hact, hmem, hcase⟩
      · intro q hq; rw [applyOp, hcase] at hq; exact h q hq
      · intro q hq
        rw [applyOp, hcase] at hq
        have hnod : a.participants.Nodup := h (n, a) (dictLookup_mem hact)
        have hnew : (a.participants ++ [e]).Nodup := by
          simp [List.nodup_append, hnod, hmem]
        exact catalogNodup_updateActivity h hnew n q hq
  | unregister n e tok =>
      rcases unregister_state_cases st n e tok with hcase | ⟨a, hact, hmem, hcase⟩
      · intro q hq; rw [applyOp, hcase] at hq; exact h q hq
      · intro q hq
        rw [applyOp, hcase] at hq
        have hnod : a.participants.Nodup := h (n, a) (dictLookup_mem hact)
        exact catalogNodup_updateActivity h (hnod.erase e) n q hq

theorem catalogNodup_foldl (teachers : List (String × String)) :
    ∀ (ops : List Op) (st : AppState), CatalogNodup st →
      CatalogNodup (ops.foldl (applyOp teachers) st) := by
  intro ops
  induction ops with
  | nil => intro st h; exact h
  | cons op rest ih =>
      intro st h
      exact ih _ (catalogNodup_applyOp teachers st op h)

/-! ### The claims -/

/-- Claim C2: whenever the session token is missing or does not resolve
in the session registry, both signup and unregister fail with
Unauthorized (status 401) and return the state unchanged, so neither the
activity catalog nor the session registry is modified. -/
theorem auth_guard_rejects (st : AppState) (name email : String) (tok : Option String)
    (hauth : require_auth st.sessions tok = none) :
    signup_for_activity st name email tok = (Except.error Err.unauthorized, st) ∧
    unregister_from_activity st name email tok = (Except.error Err.unauthorized, st) ∧
    Err.unauthorized.statusCode = 401 := by
  refine ⟨?_, ?_, rfl⟩
  · simp [signup_for_activity, hauth]
  · simp [unregister_from_activity, hauth]

/-- Witness for C2 at a concrete input: a request on the seed state with
no cookie at all. -/
theorem auth_guard_rejects_witness :
    require_auth seedState.sessions none = none ∧
    (signup_for_activity seedState "Chess Club" "zoe@mergington.edu" none =
        (Except.error Err.unauthorized, seedState) ∧
      unregister_from_activity seedState "Chess Club" "zoe@mergington.edu" none =
        (Except.error Err.unauthorized, seedState) ∧
      Err.unauthorized.statusCode = 401) :=
  ⟨rfl, auth_guard_rejects seedState "Chess Club" "zoe@mergington.edu" none rfl⟩

/-- Claim C4: with a valid session, signup and unregister on an activity
name absent from the catalog both fail with NotFound (status 404) and
return the state unchanged, so the whole catalog is untouched. -/
theorem unknown_activity_not_found (st : AppState) (name email : String)
    (tok : Option String) (u : String)
    (hauth : require_auth st.sessions tok = some u)
    (hact : dictLookup name st.activities = none) :
    signup_for_activity st name email tok = (Except.error Err.notFound, st) ∧
    unregister_from_activity st name email tok = (Except.error Err.notFound, st) ∧
    Err.notFound.statusCode = 404 := by
  refine ⟨?_, ?_, rfl⟩
  · simp [signup_for_activity, hauth, hact]
  · simp [unregister_from_activity, hauth, hact]

/-- Witness for C4 at a concrete input: an authenticated request for an
activity that is not in the seed catalog. -/
theorem unknown_activity_not_found_witness :
    require_auth demoState.sessions (some "tok123") = some "teacher" ∧
    dictLookup "Quantum Club" demoState.activities = none ∧
    (signup_for_activity demoState "Quantum Club" "zoe@mergington.edu" (some "tok123") =
        (Except.error Err.notFound, demoState) ∧
      unregister_from_activity demoState "Quantum Club" "zoe@mergington.edu" (some "tok123") =
        (Except.error Err.notFound, demoState) ∧
      Err.notFound.statusCode = 404) :=
  ⟨rfl, rfl,
    unknown_activity_not_found demoState "Quantum Club" "zoe@mergington.edu"
      (some "tok123") "teacher" rfl rfl⟩

/-- A signup for an email already on the roster fails with
AlreadyRegistered and leaves the state unchanged. -/
theorem signup_already (st : AppState) (name email : String) (tok : Option String)
    (u : String) (a : Activity)
    (hauth : require_auth st.sessions tok = some u)
    (hact : dictLookup name st.activities = some a)
    (hmem : email ∈ a.participants) :
    signup_for_activity st name email tok = (Except.error Err.alreadyRegistered, st) := by
  simp [signup_for_activity, hauth, hact, hmem]

/-- Counterexample to claim C1 as stated: it quantifies over every email,
but for an email already on the roster the first call does not succeed.
On the seed catalog with a valid session, signing up
michael@mergington.edu (already a Chess Club participant) fails
immediately with AlreadyRegistered and changes nothing, so the first call
does not succeed and the roster length does not grow. -/
theorem signup_twice_cex :
    require_auth demoState.sessions (some "tok123") = some "teacher" ∧
    dictLookup "Chess Club" demoState.activities = some chessClub ∧
    signup_for_activity demoState "Chess Club" "michael@mergington.edu" (some "tok123") =
      (Except.error Err.alreadyRegistered, demoState) :=
  ⟨rfl, rfl, rfl⟩

/-- Claim C1 (amended: the email must not already be on the roster): with
a valid session, for an activity in the catalog and an email not yet
among its participants, the first signup succeeds and appends the email,
the second signup fails with AlreadyRegistered (status 400) and leaves
the state unchanged, and the roster length grows by exactly 1 overall. -/
theorem signup_twice (st : AppState) (name email : String) (tok : Option String)
    (u : String) (a : Activity)
    (hauth : require_auth st.sessions tok = some u)
    (hact : dictLookup name st.activities = some a)
    (hnew : email ∉ a.participants) :
    (signup_for_activity st name email tok).1 = Except.ok () ∧
    dictLookup name (signup_for_activity st name email tok).2.activities =
      some ({ a with participants := a.participants ++ [email] }) ∧
    (a.participants ++ [email]).length = a.participants.length + 1 ∧
    signup_for_activity (signup_for_activity st name email tok).2 name email tok =
      (Except.error Err.alreadyRegistered, (signup_for_activity st name email tok).2) ∧
    Err.alreadyRegistered.statusCode = 400 := by
  have hs : signup_for_activity st name email tok =
      (Except.ok (), { st with activities :=
        (updateActivity name ({ a with participants := a.participants ++ [email] })
          st.activities) }) := by
    simp [signup_for_activity, hauth, hact, hnew]
  have hlook : dictLookup name (signup_for_activity st name email tok).2.activities =
      some ({ a with participants := a.participants ++ [email] }) := by
    rw [hs]
    exact dictLookup_updateActivity_self _ hact
  have hauth2 : require_auth (signup_for_activity st name email tok).2.sessions tok =
      some u := by
    rw [hs]; exact hauth
  refine ⟨by rw [hs], hlook, by simp, ?_, rfl⟩
  exact signup_already _ name email tok u _ hauth2 hlook (by simp)

/-- Witness for C1 at a concrete input: zoe@mergington.edu is not yet a
Chess Club participant of the seed catalog. -/
theorem signup_twice_witness :
    require_auth demoState.sessions (some "tok123") = some "teacher" ∧
    dictLookup "Chess Club" demoState.activities = some chessClub ∧
    "zoe@mergington.edu" ∉ chessClub.participants ∧
    ((signup_for_activity demoState "Chess Club" "zoe@mergington.edu" (some "tok123")).1 =
        Except.ok () ∧
      dictLookup "Chess Club"
          (signup_for_activity demoState "Chess Club" "zoe@mergington.edu"
            (some "tok123")).2.activities =
        some ({ chessClub with
          participants := chessClub.participants ++ ["zoe@mergington.edu"] }) ∧
      (chessClub.participants ++ ["zoe@mergington.edu"]).length =
        chessClub.participants.length + 1 ∧
      signup_for_activity
          (signup_for_activity demoState "Chess Club" "zoe@mergington.edu"
            (some "tok123")).2 "Chess Club" "zoe@mergington.edu" (some "tok123") =
        (Except.error Err.alreadyRegistered,
          (signup_for_activity demoState "Chess Club" "zoe@mergington.edu"
            (some "tok123")).2) ∧
      Err.alreadyRegistered.statusCode = 400) :=
  ⟨rfl, rfl, by decide,
    signup_twice demoState "Chess Club" "zoe@mergington.edu" (some "tok123") "teacher"
      chessClub rfl rfl (by decide)⟩

/-- Claim C3: with a valid session, on an activity in the catalog,
unregistering an email that is not on the roster fails with
NotRegistered (status 400) and leaves the state unchanged, while
unregistering an email that is on the roster succeeds and removes
exactly one occurrence of that email (its count drops by one and every
other email's count is unchanged). -/
theorem unregister_spec (st : AppState) (name email : String) (tok : Option String)
    (u : String) (a : Activity)
    (hauth : require_auth st.sessions tok = some u)
    (hact : dictLookup name st.activities = some a) :
    (email ∉ a.participants →
      unregister_from_activity st name email tok = (Except.error Err.notRegistered, st) ∧
      Err.notRegistered.statusCode = 400) ∧
    (email ∈ a.participants →
      (unregister_from_activity st name email tok).1 = Except.ok () ∧
      dictLookup name (unregister_from_activity st name email tok).2.activities =
        some ({ a with participants := a.participants.erase email }) ∧
      (a.participants.erase email).count email + 1 = a.participants.count email ∧
      ∀ e, e ≠ email → (a.participants.erase email).count e = a.participants.count e) := by
  constructor
  · intro hmem
    refine ⟨?_, rfl⟩
    simp [unregister_from_activity, hauth, hact, hmem]
  · intro hmem
    have hs : unregister_from_activity st name email tok =
        (Except.ok (), { st with activities :=
          (updateActivity name ({ a with participants := a.participants.erase email })
            st.activities) }) := by
      simp [unregister_from_activity, hauth, hact, hmem]
    refine ⟨by rw [hs], ?_, ?_, ?_⟩
    · rw [hs]
      exact dictLookup_updateActivity_self _ hact
    · have hpos : 0 < a.participants.count email := List.count_pos_iff.mpr hmem
      have hce := List.count_erase_self email a.participants
      omega
    · intro e he
      exact List.count_erase_of_ne he a.participants

/-- Witness for C3 at a concrete input: both branches on the seed Chess
Club roster, one for an absent email and one for a present one. -/
theorem unregister_spec_witness :
    require_auth demoState.sessions (some "tok123") = some "teacher" ∧
    dictLookup "Chess Club" demoState.activities = some chessClub ∧
    "zoe@mergington.edu" ∉ chessClub.participants ∧
    (unregister_from_activity demoState "Chess Club" "zoe@mergington.edu" (some "tok123") =
        (Except.error Err.notRegistered, demoState) ∧
      Err.notRegistered.statusCode = 400) ∧
    "michael@mergington.edu" ∈ chessClub.participants ∧
    ((unregister_from_activity demoState "Chess Club" "michael@mergington.edu"
          (some "tok123")).1 = Except.ok () ∧
      dictLookup "Chess Club"
          (unregister_from_activity demoState "Chess Club" "michael@mergington.edu"
            (some "tok123")).2.activities =
        some ({ chessClub with
          participants := chessClub.participants.erase "michael@mergington.edu" }) ∧
      (chessClub.participants.erase "michael@mergington.edu").count "michael@mergington.edu"
          + 1 = chessClub.participants.count "michael@mergington.edu" ∧
      ∀ e, e ≠ "michael@mergington.edu" →
        (chessClub.participants.erase "michael@mergington.edu").count e =
          chessClub.participants.count e) :=
  ⟨rfl, rfl, by decide,
    (unregister_spec demoState "Chess Club" "zoe@mergington.edu" (some "tok123") "teacher"
      chessClub rfl rfl).1 (by decide),
    by decide,
    (unregister_spec demoState "Chess Club" "michael@mergington.edu" (some "tok123")
      "teacher" chessClub rfl rfl).2 (by decide)⟩

/-- Claim C8: the capacity field is never consulted.  With a valid
session, for an activity in the catalog and an email not yet on its
roster, signup succeeds and appends the email even when the roster
already has at least max_participants entries. -/
theorem signup_ignores_capacity (st : AppState) (name email : String)
    (tok : Option String) (u : String) (a : Activity)
    (hauth : require_auth st.sessions tok = some u)
    (hact : dictLookup name st.activities = some a)
    (hnew : email ∉ a.participants)
    (hfull : a.max_participants ≤ a.participants.length) :
    (signup_for_activity st name email tok).1 = Except.ok () ∧
    dictLookup name (signup_for_activity st name email tok).2.activities =
      some ({ a with participants := a.participants ++ [email] }) := by
  have hs : signup_for_activity st name email tok =
      (Except.ok (), { st with activities :=
        (updateActivity name ({ a with participants := a.participants ++ [email] })
          st.activities) }) := by
    simp [signup_for_activity, hauth, hact, hnew]
  refine ⟨by rw [hs], ?_⟩
  rw [hs]
  exact dictLookup_updateActivity_self _ hact

/-- Witness for C8 at a concrete input: Tiny Club already holds 2 of its
maximum 2 participants, yet a third signup succeeds. -/
theorem signup_ignores_capacity_witness :
    require_auth fullState.sessions (some "tok123") = some "teacher" ∧
    dictLookup "Tiny Club" fullState.activities = some tinyClub ∧
    "c@mergington.edu" ∉ tinyClub.participants ∧
    tinyClub.max_participants ≤ tinyClub.participants.length ∧
    ((signup_for_activity fullState "Tiny Club" "c@mergington.edu" (some "tok123")).1 =
        Except.ok () ∧
      dictLookup "Tiny Club"
          (signup_for_activity fullState "Tiny Club" "c@mergington.edu"
            (some "tok123")).2.activities =
        some ({ tinyClub with
          participants := tinyClub.participants ++ ["c@mergington.edu"] })) :=
  ⟨rfl, rfl, by decide, by decide,
    signup_ignores_capacity fullState "Tiny Club" "c@mergington.edu" (some "tok123")
      "teacher" tinyClub rfl rfl (by decide) (by decide)⟩

/-- An unregister for an email on the roster succeeds and erases its
first occurrence from the stored activity. -/
theorem unregister_present (st : AppState) (name email : String) (tok : Option String)
    (u : String) (a : Activity)
    (hauth : require_auth st.sessions tok = some u)
    (hact : dictLookup name st.activities = some a)
    (hmem : email ∈ a.participants) :
    unregister_from_activity st name email tok =
      (Except.ok (), { st with activities :=
        (updateActivity name ({ a with participants := a.participants.erase email })
          st.activities) }) := by
  simp [unregister_from_activity, hauth, hact, hmem]

/-- Claim C9 (round trip): with a valid session, on an activity of the
catalog whose roster is duplicate-free, signing up an email that is not
on the roster and then unregistering it restores the activity record,
participant sequence included, to exactly its original value. -/
theorem signup_unregister_roundtrip (st : AppState) (name email : String)
    (tok : Option String) (u : String) (a : Activity)
    (hauth : require_auth st.sessions tok = some u)
    (hact : dictLookup name st.activities = some a)
    (hnodup : a.participants.Nodup)
    (hnew : email ∉ a.participants) :
    dictLookup name
      (unregister_from_activity (signup_for_activity st name email tok).2
        name email tok).2.activities = some a := by
  have hs : signup_for_activity st name email tok =
      (Except.ok (), { st with activities :=
        (updateActivity name ({ a with participants := a.participants ++ [email] })
          st.activities) }) := by
    simp [signup_for_activity, hauth, hact, hnew]
  have hauth2 : require_auth (signup_for_activity st name email tok).2.sessions tok =
      some u := by rw [hs]; exact hauth
  have hlook1 : dictLookup name (signup_for_activity st name email tok).2.activities =
      some ({ a with participants := a.participants ++ [email] }) := by
    rw [hs]; exact dictLookup_updateActivity_self _ hact
  have hmem : email ∈
      ({ a with participants := a.participants ++ [email] } : Activity).participants := by
    simp
  have herase : (a.participants ++ [email]).erase email = a.participants := by
    rw [List.erase_append_right _ hnew]; simp
  have hXa : ({ ({ a with participants := a.participants ++ [email] } : Activity) with
      participants :=
        ({ a with participants := a.participants ++ [email] } :
          Activity).participants.erase email }) = a := by
    show ({ a with participants := (a.participants ++ [email]).erase email }) = a
    rw [herase]
  rw [unregister_present _ name email tok u _ hauth2 hlook1 hmem]
  rw [show (({ (signup_for_activity st name email tok).2 with activities :=
      (updateActivity name
        ({ ({ a with participants := a.participants ++ [email] } : Activity) with
            participants :=
              ({ a with participants := a.participants ++ [email] } :
                Activity).participants.erase email })
        (signup_for_activity st name email tok).2.activities) } : AppState)).activities =
      updateActivity name
        ({ ({ a with participants := a.participants ++ [email] } : Activity) with
            participants :=
              ({ a with participants := a.participants ++ [email] } :
                Activity).participants.erase email })
        (signup_for_activity st name email tok).2.activities from rfl]
  rw [hXa]
  exact dictLookup_updateActivity_self a hlook1

/-- Witness for C9 at a concrete input: signing up and then removing
zoe@mergington.edu leaves the seed Chess Club record intact. -/
theorem signup_unregister_roundtrip_witness :
    require_auth demoState.sessions (some "tok123") = some "teacher" ∧
    dictLookup "Chess Club" demoState.activities = some chessClub ∧
    chessClub.participants.Nodup ∧
    "zoe@mergington.edu" ∉ chessClub.participants ∧
    dictLookup "Chess Club"
      (unregister_from_activity
        (signup_for_activity demoState "Chess Club" "zoe@mergington.edu"
          (some "tok123")).2
        "Chess Club" "zoe@mergington.edu" (some "tok123")).2.activities = some chessClub :=
  ⟨rfl, rfl, by decide, by decide,
    signup_unregister_roundtrip demoState "Chess Club" "zoe@mergington.edu"
      (some "tok123") "teacher" chessClub rfl rfl (by decide) (by decide)⟩

/-- Claim C10 (frame): whether it succeeds or fails, a signup or
unregister call on activity `name` leaves the session registry
unchanged, leaves every other activity slot unchanged, and keeps the
named activity's slot occupied with its description, schedule and
max_participants intact (only the participant roster may change). -/
theorem mutation_frame (st : AppState) (name email k : String) (tok : Option String)
    (hk : k ≠ name) :
    (signup_for_activity st name email tok).2.sessions = st.sessions ∧
    (unregister_from_activity st name email tok).2.sessions = st.sessions ∧
    dictLookup k (signup_for_activity st name email tok).2.activities =
      dictLookup k st.activities ∧
    dictLookup k (unregister_from_activity st name email tok).2.activities =
      dictLookup k st.activities ∧
    sameShape (dictLookup name st.activities)
      (dictLookup name (signup_for_activity st name email tok).2.activities) ∧
    sameShape (dictLookup name st.activities)
      (dictLookup name (unregister_from_activity st name email tok).2.activities) := by
  obtain ⟨hs1, hs2⟩ := mutations_preserve_sessions st name email tok
  refine ⟨hs1, hs2, ?_, ?_, ?_, ?_⟩
  · rcases signup_state_cases st name email tok with h | ⟨a, hact, hmem, h⟩
    · rw [h]
    · rw [h]
      exact dictLookup_updateActivity_ne hk _ _
  · rcases unregister_state_cases st name email tok with h | ⟨a, hact, hmem, h⟩
    · rw [h]
    · rw [h]
      exact dictLookup_updateActivity_ne hk _ _
  · rcases signup_state_cases st name email tok with h | ⟨a, hact, hmem, h⟩
    · rw [h]; exact sameShape_refl _
    · rw [h]
      have hupd := dictLookup_updateActivity_self
        ({ a with participants := a.participants ++ [email] }) hact
      rw [hact]
      rw [show ({ st with activities :=
          (updateActivity name ({ a with participants := a.participants ++ [email] })
            st.activities) } : AppState).activities =
          updateActivity name ({ a with participants := a.participants ++ [email] })
            st.activities from rfl]
      rw [hupd]
      simp [sameShape]
  · rcases unregister_state_cases st name email tok with h | ⟨a, hact, hmem, h⟩
    · rw [h]; exact sameShape_refl _
    · rw [h]
      have hupd := dictLookup_updateActivity_self
        ({ a with participants := a.participants.erase email }) hact
      rw [hact]
      rw [show ({ st with activities :=
          (updateActivity name ({ a with participants := a.participants.erase email })
            st.activities) } : AppState).activities =
          updateActivity name ({ a with participants := a.participants.erase email })
            st.activities from rfl]
      rw [hupd]
      simp [sameShape]

/-- Witness for C10 at a concrete input: a successful Chess Club signup
leaves the sessions, the Math Club slot, and the Chess Club metadata
untouched. -/
theorem mutation_frame_witness :
    ("Math Club" : String) ≠ "Chess Club" ∧
    ((signup_for_activity demoState "Chess Club" "zoe@mergington.edu"
        (some "tok123")).2.sessions = demoState.sessions ∧
      (unregister_from_activity demoState "Chess Club" "zoe@mergington.edu"
        (some "tok123")).2.sessions = demoState.sessions ∧
      dictLookup "Math Club"
          (signup_for_activity demoState "Chess Club" "zoe@mergington.edu"
            (some "tok123")).2.activities =
        dictLookup "Math Club" demoState.activities ∧
      dictLookup "Math Club"
          (unregister_from_activity demoState "Chess Club" "zoe@mergington.edu"
            (some "tok123")).2.activities =
        dictLookup "Math Club" demoState.activities ∧
      sameShape (dictLookup "Chess Club" demoState.activities)
        (dictLookup "Chess Club"
          (signup_for_activity demoState "Chess Club" "zoe@mergington.edu"
            (some "tok123")).2.activities) ∧
      sameShape (dictLookup "Chess Club" demoState.activities)
        (dictLookup "Chess Club"
          (unregister_from_activity demoState "Chess Club" "zoe@mergington.edu"
            (some "tok123")).2.activities)) :=
  ⟨by decide,
    mutation_frame demoState "Chess Club" "zoe@mergington.edu" "Math Club"
      (some "tok123") (by decide)⟩

/-- Counterexample to claim C6 as stated: it asserts that after logout
the supplied token is never in the session registry, for every state and
cookie value.  An empty-string cookie is falsy in Python, so
`if session_token and session_token in sessions` skips the deletion: on
a state whose registry holds the key "", logging out with cookie ""
succeeds but leaves that very token in the registry. -/
theorem logout_empty_token_cex :
    (logout emptyTokState (some "")).1 = Except.ok () ∧
    (logout emptyTokState (some "")).2 = emptyTokState ∧
    dictLookup "" (logout emptyTokState (some "")).2.sessions = some "ghost" :=
  ⟨rfl, rfl, rfl⟩

/-- Claim C6 (amended: token removal is guaranteed only for nonempty
tokens, since an empty-string cookie is falsy in Python and is treated
as absent): logout always succeeds, afterwards any nonempty supplied
token no longer resolves in the session registry, and running logout
twice with the same cookie produces the same response and state as
running it once. -/
theorem logout_spec (st : AppState) (tok : Option String) :
    (logout st tok).1 = Except.ok () ∧
    (∀ t, tok = some t → t ≠ "" → dictLookup t (logout st tok).2.sessions = none) ∧
    logout (logout st tok).2 tok = logout st tok := by
  cases tok with
  | none =>
      refine ⟨rfl, ?_, rfl⟩
      intro t ht
      cases ht
  | some t =>
      by_cases hte : t = ""
      · subst hte
        have hres : logout st (some "") = (Except.ok (), st) := by
          simp [logout]
        refine ⟨by rw [hres], ?_, by rw [hres]; exact hres⟩
        intro t' ht' hne
        cases ht'
        exact absurd rfl hne
      · by_cases hin : (dictLookup t st.sessions).isSome
        · have hres : logout st (some t) =
              (Except.ok (), { st with sessions := dictErase t st.sessions }) := by
            simp [logout, hte, hin]
          have hnone : dictLookup t
              ({ st with sessions := dictErase t st.sessions } : AppState).sessions =
              none := dictLookup_dictErase_self t st.sessions
          refine ⟨by rw [hres], ?_, ?_⟩
          · intro t' ht' hne
            cases ht'
            rw [hres]
            exact hnone
          · rw [hres]
            simp [logout, hnone]
        · have hnone : dictLookup t st.sessions = none := by
            rcases h : dictLookup t st.sessions with _ | v
            · rfl
            · rw [h] at hin
              exact absurd rfl hin
          have hres : logout st (some t) = (Except.ok (), st) := by
            simp [logout, hin]
          refine ⟨by rw [hres], ?_, by rw [hres]; exact hres⟩
          intro t' ht' hne
          cases ht'
          rw [hres]
          exact hnone

/-- Witness for C6 at a concrete input: logging out the valid session of
the demo state removes its token, and a second logout is a no-op. -/
theorem logout_spec_witness :
    (logout demoState (some "tok123")).1 = Except.ok () ∧
    ("tok123" : String) ≠ "" ∧
    dictLookup "tok123" (logout demoState (some "tok123")).2.sessions = none ∧
    logout (logout demoState (some "tok123")).2 (some "tok123") =
      logout demoState (some "tok123") :=
  ⟨(logout_spec demoState (some "tok123")).1,
    by decide,
    (logout_spec demoState (some "tok123")).2.1 "tok123" rfl (by decide),
    (logout_spec demoState (some "tok123")).2.2⟩

/-- Claim C7: with a token fresh for the current registry (as the random
generator is assumed to produce), login fails with Unauthorized (status
401) and leaves the state unchanged when the username is unknown or the
stored password differs; when the credential matches, it succeeds, 
returns the username, leaves the catalog unchanged, and extends the
session registry with exactly the one new binding token -> username. -/
theorem login_spec (teachers : List (String × String)) (st : AppState)
    (username password token : String)
    (hfresh : dictLookup token st.sessions = none) :
    ((dictLookup username teachers = none ∨
        dictLookup username teachers ≠ some password) →
      login teachers st username password token = (Except.error Err.unauthorized, st) ∧
      Err.unauthorized.statusCode = 401) ∧
    (dictLookup username teachers = some password →
      (login teachers st username password token).1 = Except.ok username ∧
      (login teachers st username password token).2.activities = st.activities ∧
      (login teachers st username password token).2.sessions =
        st.sessions ++ [(token, username)] ∧
      dictLookup token (login teachers st username password token).2.sessions =
        some username ∧
      (login teachers st username password token).2.sessions.length =
        st.sessions.length + 1) := by
  constructor
  · intro hbad
    refine ⟨?_, rfl⟩
    rcases hcred : dictLookup username teachers with _ | pw
    · simp [login, hcred]
    · have hne : pw ≠ password := by
        rcases hbad with h | h
        · rw [hcred] at h
          cases h
        · intro he
          apply h
          rw [hcred, he]
      simp [login, hcred, hne]
  · intro hgood
    have hins : dictInsert token username st.sessions =
        st.sessions ++ [(token, username)] := by
      simp [dictInsert, hfresh]
    have hres : login teachers st username password token =
        (Except.ok username,
          { st with sessions := dictInsert token username st.sessions }) := by
      simp [login, hgood]
    refine ⟨by rw [hres], by rw [hres], ?_, ?_, ?_⟩
    · rw [hres]
      exact hins
    · rw [hres]
      show dictLookup token (dictInsert token username st.sessions) = some username
      rw [hins]
      exact dictLookup_append_fresh username hfresh
    · rw [hres]
      show (dictInsert token username st.sessions).length = st.sessions.length + 1
      rw [hins]
      simp

/-- Witness for C7 at a concrete input: a successful login against a
one-teacher credential store on the seed state. -/
theorem login_spec_witness :
    dictLookup "tok9" seedState.sessions = none ∧
    dictLookup "teacher" demoTeachers = some "pw" ∧
    ((login demoTeachers seedState "teacher" "pw" "tok9").1 = Except.ok "teacher" ∧
      (login demoTeachers seedState "teacher" "pw" "tok9").2.activities =
        seedState.activities ∧
      (login demoTeachers seedState "teacher" "pw" "tok9").2.sessions =
        seedState.sessions ++ [("tok9", "teacher")] ∧
      dictLookup "tok9" (login demoTeachers seedState "teacher" "pw" "tok9").2.sessions =
        some "teacher" ∧
      (login demoTeachers seedState "teacher" "pw" "tok9").2.sessions.length =
        seedState.sessions.length + 1) :=
  ⟨rfl, rfl, (login_spec demoTeachers seedState "teacher" "pw" "tok9" rfl).2 rfl⟩

/-- Claim C5: the seed catalog has duplicate-free rosters, and every
state reachable from it by any sequence of login, logout, signup and
unregister operations keeps every activity's participant list
duplicate-free. -/
theorem catalog_nodup_invariant :
    CatalogNodup seedState ∧
    ∀ (teachers : List (String × String)) (ops : List Op),
      CatalogNodup (ops.foldl (applyOp teachers) seedState) := by
  have hseed : CatalogNodup seedState := by decide
  exact ⟨hseed, fun teachers ops => catalogNodup_foldl teachers ops seedState hseed⟩
